import Mathlib

/-
Verification of the geospatial query and protocol-adaptation layer of the
SGU geodata MCP server.

Shallow embedding conventions:
  - JavaScript numbers are embedded as rationals (exact arithmetic).
  - Fallible functions return Except; a thrown ValidationError becomes an
    error value carrying the same message and field strings as the source.
  - Number-to-string interpolation in messages and WKT output is rendered
    by ratStr, which stands in for the JavaScript number formatting; the
    claims only inspect fixed substrings and structural equality, which do
    not depend on the digit rendering.
  - Math.sqrt is passed in as an explicit function parameter (sq) where it
    occurs, since it is a floating-point library routine; all claims about
    the corridor polygon hold for every choice of that function.
-/

set_option maxRecDepth 4000

namespace Sgu

/-- Rendering of an embedded JavaScript number into a string. -/
def ratStr (q : ℚ) : String :=
  if q.den = 1 then toString q.num else toString q.num ++ "/" ++ toString q.den

/-- Error class ValidationError from lib/errors.ts (message, field). -/
structure ValidationError where
  message : String
  field : String
deriving DecidableEq, Repr

/-- Error class UpstreamApiError from lib/errors.ts (message, statusCode, upstream). -/
structure UpstreamApiError where
  message : String
  statusCode : Nat
  upstream : String
deriving DecidableEq, Repr

/-- Point in SWEREF99TM coordinates (geometry-utils.ts). -/
structure Point where
  x : ℚ
  y : ℚ
deriving DecidableEq, Repr

/-- Bounding box in SWEREF99TM coordinates (geometry-utils.ts). -/
structure BoundingBox where
  minX : ℚ
  minY : ℚ
  maxX : ℚ
  maxY : ℚ
deriving DecidableEq, Repr

/-- Corridor definition: line with buffer (geometry-utils.ts). -/
structure Corridor where
  coordinates : List Point
  bufferMeters : ℚ
deriving DecidableEq, Repr

/-- isValidSwedishCoordinate from geometry-utils.ts: SWEREF99TM bounds check. -/
def isValidSwedishCoordinate (x y : ℚ) : Bool :=
  decide (200000 ≤ x) && decide (x ≤ 1000000) && decide (6100000 ≤ y) && decide (y ≤ 7700000)

/-- validateBbox from geometry-utils.ts. -/
def validateBbox (bbox : BoundingBox) : Except ValidationError Unit :=
  if bbox.minX ≥ bbox.maxX then
    .error ⟨"minX must be less than maxX", "bbox"⟩
  else if bbox.minY ≥ bbox.maxY then
    .error ⟨"minY must be less than maxY", "bbox"⟩
  else if !(isValidSwedishCoordinate bbox.minX bbox.minY) then
    .error ⟨"Coordinates (" ++ ratStr bbox.minX ++ ", " ++ ratStr bbox.minY ++
      ") are outside valid SWEREF99TM range for Sweden", "bbox"⟩
  else if !(isValidSwedishCoordinate bbox.maxX bbox.maxY) then
    .error ⟨"Coordinates (" ++ ratStr bbox.maxX ++ ", " ++ ratStr bbox.maxY ++
      ") are outside valid SWEREF99TM range for Sweden", "bbox"⟩
  else
    .ok ()

/-- bboxToString from geometry-utils.ts: OGC bbox query-parameter string. -/
def bboxToString (bbox : BoundingBox) : String :=
  ratStr bbox.minX ++ "," ++ ratStr bbox.minY ++ "," ++ ratStr bbox.maxX ++ "," ++ ratStr bbox.maxY

/-- corridorToBoundingBox from geometry-utils.ts.  The JavaScript loop folds
min and max starting from plus and minus Infinity; over the nonempty vertex
list this equals folding from the first vertex, which is how the envelope is
expressed here. -/
def corridorToBoundingBox (corridor : Corridor) : Except ValidationError BoundingBox :=
  if corridor.coordinates.length < 2 then
    .error ⟨"Corridor must have at least 2 coordinate pairs", "corridor"⟩
  else
    match corridor.coordinates with
    | [] => .error ⟨"Corridor must have at least 2 coordinate pairs", "corridor"⟩
    | p :: rest =>
      let minX := rest.foldl (fun m q => min m q.x) p.x
      let minY := rest.foldl (fun m q => min m q.y) p.y
      let maxX := rest.foldl (fun m q => max m q.x) p.x
      let maxY := rest.foldl (fun m q => max m q.y) p.y
      .ok ⟨minX - corridor.bufferMeters, minY - corridor.bufferMeters,
           maxX + corridor.bufferMeters, maxY + corridor.bufferMeters⟩

/-- C6: validateBbox raises ValidationError exactly when the box is malformed:
it succeeds iff minX < maxX, minY < maxY and both checked corners lie in the
SWEREF99TM range x in [200000, 1000000], y in [6100000, 7700000]; and whenever
minX >= maxX the error carries the message "minX must be less than maxX". -/
theorem validateBbox_ok_iff_wellformed (b : BoundingBox) :
    ((validateBbox b = .ok ()) ↔
      (b.minX < b.maxX ∧ b.minY < b.maxY ∧
        (200000 ≤ b.minX ∧ b.minX ≤ 1000000 ∧ 6100000 ≤ b.minY ∧ b.minY ≤ 7700000) ∧
        (200000 ≤ b.maxX ∧ b.maxX ≤ 1000000 ∧ 6100000 ≤ b.maxY ∧ b.maxY ≤ 7700000))) ∧
    (b.maxX ≤ b.minX →
      validateBbox b = .error ⟨"minX must be less than maxX", "bbox"⟩) := by
  constructor
  · unfold validateBbox
    split_ifs with h1 h2 h3 h4 <;>
      simp_all [isValidSwedishCoordinate] <;>
      (first
        | (rcases h3 with ((h | h) | h) | h <;> intros <;> linarith)
        | (rcases h4 with ((h | h) | h) | h <;> intros <;> linarith))
  · intro h
    unfold validateBbox
    rw [if_pos (by linarith)]

/-- Witness for validateBbox_ok_iff_wellformed at the box with
minX = 680000, maxX = 670000 from the spec scenario. -/
theorem validateBbox_ok_iff_wellformed_witness :
    validateBbox ⟨680000, 6570000, 670000, 6590000⟩ =
      .error ⟨"minX must be less than maxX", "bbox"⟩ :=
  (validateBbox_ok_iff_wellformed ⟨680000, 6570000, 670000, 6590000⟩).2 (by norm_num)

/-- C9: corridor buffering monotonicity: with the same vertex list, a larger
buffer produces a bounding box that contains the smaller-buffer box
componentwise. -/
theorem corridorToBoundingBox_monotone (coords : List Point) (b1 b2 : ℚ)
    (hlen : 2 ≤ coords.length) (hpos : 0 < b1) (hlt : b1 < b2) :
    ∃ box1 box2,
      corridorToBoundingBox ⟨coords, b1⟩ = .ok box1 ∧
      corridorToBoundingBox ⟨coords, b2⟩ = .ok box2 ∧
      box2.minX ≤ box1.minX ∧ box2.minY ≤ box1.minY ∧
      box1.maxX ≤ box2.maxX ∧ box1.maxY ≤ box2.maxY := by
  cases coords with
  | nil => simp at hlen
  | cons p rest =>
    have hc : ¬((p :: rest).length < 2) := by simpa using hlen
    have e1 : corridorToBoundingBox ⟨p :: rest, b1⟩ =
        .ok ⟨(rest.foldl (fun m q => min m q.x) p.x) - b1,
             (rest.foldl (fun m q => min m q.y) p.y) - b1,
             (rest.foldl (fun m q => max m q.x) p.x) + b1,
             (rest.foldl (fun m q => max m q.y) p.y) + b1⟩ := by
      unfold corridorToBoundingBox
      rw [if_neg hc]
    have e2 : corridorToBoundingBox ⟨p :: rest, b2⟩ =
        .ok ⟨(rest.foldl (fun m q => min m q.x) p.x) - b2,
             (rest.foldl (fun m q => min m q.y) p.y) - b2,
             (rest.foldl (fun m q => max m q.x) p.x) + b2,
             (rest.foldl (fun m q => max m q.y) p.y) + b2⟩ := by
      unfold corridorToBoundingBox
      rw [if_neg hc]
    refine ⟨_, _, e1, e2, ?_, ?_, ?_, ?_⟩ <;> dsimp <;> linarith

/-- Witness for corridorToBoundingBox_monotone on the spec scenario corridor
with buffers 100 and 200. -/
theorem corridorToBoundingBox_monotone_witness :
    ∃ box1 box2,
      corridorToBoundingBox ⟨[⟨670000, 6570000⟩, ⟨680000, 6580000⟩], 100⟩ = .ok box1 ∧
      corridorToBoundingBox ⟨[⟨670000, 6570000⟩, ⟨680000, 6580000⟩], 200⟩ = .ok box2 ∧
      box2.minX ≤ box1.minX ∧ box2.minY ≤ box1.minY ∧
      box1.maxX ≤ box2.maxX ∧ box1.maxY ≤ box2.maxY :=
  corridorToBoundingBox_monotone [⟨670000, 6570000⟩, ⟨680000, 6580000⟩] 100 200
    (by norm_num) (by norm_num) (by norm_num)

/-! Coordinate transform (lib/coordinates.ts).  The projection itself is the
third-party proj4 library, which is not part of this repository; it is passed in
as an explicit function parameter (proj) to the functions that call it, and a
concrete executable model of it is provided below for the claims that need
the actual EPSG:3006 numbers. -/

/-- Point in WGS84 coordinates (coordinates.ts). -/
structure Wgs84Point where
  latitude : ℚ
  longitude : ℚ
deriving DecidableEq, Repr

/-- Point in SWEREF99TM coordinates (coordinates.ts). -/
structure Sweref99Point where
  x : ℚ
  y : ℚ
deriving DecidableEq, Repr

/-- Bounding box in WGS84 coordinates (coordinates.ts). -/
structure Wgs84Bbox where
  minLat : ℚ
  minLon : ℚ
  maxLat : ℚ
  maxLon : ℚ
deriving DecidableEq, Repr

/-- Bounding box in SWEREF99TM coordinates (coordinates.ts); the same shape
as the geometry-utils BoundingBox. -/
abbrev Sweref99Bbox := BoundingBox

/-- isValidWgs84Coordinate from coordinates.ts: Sweden envelope check. -/
def isValidWgs84Coordinate (latitude longitude : ℚ) : Bool :=
  decide (55 ≤ latitude) && decide (latitude ≤ 69) &&
  decide (11 ≤ longitude) && decide (longitude ≤ 24)

/-- wgs84ToSweref99 from coordinates.ts, with the proj4 projection call passed
in as the parameter proj.  The out-of-range message text equals the source
template literal; it is written in pieces so that the fixed fragment named by
the spec is a syntactic part of it. -/
def wgs84ToSweref99 (proj : Wgs84Point → Sweref99Point) (point : Wgs84Point) :
    Except ValidationError Sweref99Point :=
  if isValidWgs84Coordinate point.latitude point.longitude then
    .ok (proj point)
  else
    .error ⟨"WGS84 coordinates (" ++ ratStr point.latitude ++ ", " ++
      ratStr point.longitude ++ ") are " ++ "outside valid range for Sweden" ++
      " (55-69°N, 11-24°E)", "coordinates"⟩

/-- wgs84BboxToSweref99 from coordinates.ts: validates the two corners and the
ordering, converts the (minLat, minLon) and (maxLat, maxLon) corners, and
returns their projected coordinates directly as minX/minY/maxX/maxY. -/
def wgs84BboxToSweref99 (proj : Wgs84Point → Sweref99Point) (bbox : Wgs84Bbox) :
    Except ValidationError Sweref99Bbox :=
  if !(isValidWgs84Coordinate bbox.minLat bbox.minLon) then
    .error ⟨"WGS84 coordinates (" ++ ratStr bbox.minLat ++ ", " ++ ratStr bbox.minLon ++
      ") are outside valid range for Sweden (55-69°N, 11-24°E)", "bbox"⟩
  else if !(isValidWgs84Coordinate bbox.maxLat bbox.maxLon) then
    .error ⟨"WGS84 coordinates (" ++ ratStr bbox.maxLat ++ ", " ++ ratStr bbox.maxLon ++
      ") are outside valid range for Sweden (55-69°N, 11-24°E)", "bbox"⟩
  else if bbox.minLat ≥ bbox.maxLat then
    .error ⟨"minLat must be less than maxLat", "bbox"⟩
  else if bbox.minLon ≥ bbox.maxLon then
    .error ⟨"minLon must be less than maxLon", "bbox"⟩
  else
    match wgs84ToSweref99 proj ⟨bbox.minLat, bbox.minLon⟩,
          wgs84ToSweref99 proj ⟨bbox.maxLat, bbox.maxLon⟩ with
    | .ok minCorner, .ok maxCorner =>
      .ok ⟨minCorner.x, minCorner.y, maxCorner.x, maxCorner.y⟩
    | .error e, _ => .error e
    | .ok _, .error e => .error e

/-! Executable model of the third-party projection.  All arithmetic is done on
integers scaled by 10^12 so that concrete evaluations reduce in the kernel. -/

/-- Fixed-point scale (10^12) for the projection model. -/
def fxScale : Int := 1000000000000

/-- Fixed-point multiplication. -/
def fxMul (a b : Int) : Int := a * b / fxScale

/-- Fixed-point division. -/
def fxDiv (a b : Int) : Int := a * fxScale / b

/-- Pi at the fixed-point scale. -/
def piFx : Int := 3141592653590

/-- Degrees to radians at the fixed-point scale. -/
def toRadFx (d : Int) : Int := fxMul d piFx / 180

/-- Truncated Taylor series for sine at the fixed-point scale. -/
def sinFx (r : Int) : Int :=
  let r2 := fxMul r r
  let t1 := r
  let t2 := (-(fxMul t1 r2)) / 6
  let t3 := (-(fxMul t2 r2)) / 20
  let t4 := (-(fxMul t3 r2)) / 42
  let t5 := (-(fxMul t4 r2)) / 72
  let t6 := (-(fxMul t5 r2)) / 110
  let t7 := (-(fxMul t6 r2)) / 156
  let t8 := (-(fxMul t7 r2)) / 210
  let t9 := (-(fxMul t8 r2)) / 272
  let t10 := (-(fxMul t9 r2)) / 342
  t1 + t2 + t3 + t4 + t5 + t6 + t7 + t8 + t9 + t10

/-- Truncated Taylor series for cosine at the fixed-point scale. -/
def cosFx (r : Int) : Int :=
  let r2 := fxMul r r
  let t1 := fxScale
  let t2 := (-(fxMul t1 r2)) / 2
  let t3 := (-(fxMul t2 r2)) / 12
  let t4 := (-(fxMul t3 r2)) / 30
  let t5 := (-(fxMul t4 r2)) / 56
  let t6 := (-(fxMul t5 r2)) / 90
  let t7 := (-(fxMul t6 r2)) / 132
  let t8 := (-(fxMul t7 r2)) / 182
  let t9 := (-(fxMul t8 r2)) / 240
  let t10 := (-(fxMul t9 r2)) / 306
  t1 + t2 + t3 + t4 + t5 + t6 + t7 + t8 + t9 + t10

/-- Fuel-bounded Newton iteration for the integer square root. -/
def isqrtIter : Nat → Nat → Nat → Nat
  | 0, _, g => g
  | fuel + 1, n, g =>
    let g2 := (g + n / g) / 2
    if g2 < g then isqrtIter fuel n g2 else g

/-- Integer square root via Newton iteration. -/
def isqrtFuel (n : Nat) : Nat := if n ≤ 1 then n else isqrtIter 200 n (n / 2)

/-- Fixed-point square root. -/
def fxSqrt (x : Int) : Int := Int.ofNat (isqrtFuel (x * fxScale).toNat)

/-- Rational to fixed point. -/
def ratToFx (q : ℚ) : Int := q.num * fxScale / (q.den : Int)

/-- Fixed point to rational. -/
def fxToRat (v : Int) : ℚ := Rat.divInt v fxScale

/-- Modelled from the spec: the proj4 call for EPSG:3006 (a third-party library
dependency, not part of this repository).  Section 4.1 of the spec describes
it as a standard UTM zone 33 transverse-Mercator formula on the GRS80
ellipsoid with zero datum shift, any conformant implementation being
acceptable.  This is the standard Snyder series for that projection
(central meridian 15 degrees east, scale factor 0.9996, false easting
500000), evaluated in fixed-point integer arithmetic. -/
def proj4Epsg3006 (p : Wgs84Point) : Sweref99Point :=
  let aFx : Int := 6378137 * fxScale
  let k0Fx : Int := 999600000000
  let e2Fx : Int := 6694380023
  let ep2Fx : Int := 6739496775
  let c0Fx : Int := 998324298445
  let c2Fx : Int := 2514607073
  let c4Fx : Int := 2639047
  let c6Fx : Int := 3418
  let lon0Fx : Int := 15 * fxScale
  let phi := toRadFx (ratToFx p.latitude)
  let sphi := sinFx phi
  let cphi := cosFx phi
  let tphi := fxDiv sphi cphi
  let sin2 := fxMul sphi sphi
  let bigN := fxDiv aFx (fxSqrt (fxScale - fxMul e2Fx sin2))
  let bigT := fxMul tphi tphi
  let bigC := fxMul ep2Fx (fxMul cphi cphi)
  let bigA := fxMul (toRadFx (ratToFx p.longitude - lon0Fx)) cphi
  let a2 := fxMul bigA bigA
  let a3 := fxMul a2 bigA
  let a4 := fxMul a2 a2
  let a5 := fxMul a4 bigA
  let a6 := fxMul a4 a2
  let bigM := fxMul aFx
    (fxMul c0Fx phi - fxMul c2Fx (sinFx (2 * phi)) +
      fxMul c4Fx (sinFx (4 * phi)) - fxMul c6Fx (sinFx (6 * phi)))
  let innerX := bigA + fxMul (fxScale - bigT + bigC) a3 / 6 +
    fxMul (5 * fxScale - 18 * bigT + fxMul bigT bigT + 72 * bigC - 58 * ep2Fx) a5 / 120
  let xFx := 500000 * fxScale + fxMul k0Fx (fxMul bigN innerX)
  let innerY := a2 / 2 +
    fxMul (5 * fxScale - bigT + 9 * bigC + 4 * fxMul bigC bigC) a4 / 24 +
    fxMul (61 * fxScale - 58 * bigT + fxMul bigT bigT + 600 * bigC - 330 * ep2Fx) a6 / 720
  let yFx := fxMul k0Fx (bigM + fxMul bigN (fxMul tphi innerY))
  ⟨fxToRat xFx, fxToRat yFx⟩

/-- True when a bbox conversion succeeded but produced minX greater than
maxX, violating the BoundingBox ordering invariant. -/
def resultHasInvertedX : Except ValidationError Sweref99Bbox → Bool
  | .ok r => decide (r.maxX < r.minX)
  | .error _ => false

/-- C7: wgs84ToSweref99 throws ValidationError exactly when the point is
outside the Sweden WGS84 envelope latitude in [55, 69], longitude in
[11, 24]; inside the envelope it returns the projected point without
throwing, and outside it the error message contains the fragment
"outside valid range for Sweden". -/
theorem wgs84ToSweref99_envelope (proj : Wgs84Point → Sweref99Point) (p : Wgs84Point) :
    ((∃ q, wgs84ToSweref99 proj p = .ok q) ↔
      (55 ≤ p.latitude ∧ p.latitude ≤ 69 ∧ 11 ≤ p.longitude ∧ p.longitude ≤ 24)) ∧
    ((55 ≤ p.latitude ∧ p.latitude ≤ 69 ∧ 11 ≤ p.longitude ∧ p.longitude ≤ 24) →
      wgs84ToSweref99 proj p = .ok (proj p)) ∧
    (¬(55 ≤ p.latitude ∧ p.latitude ≤ 69 ∧ 11 ≤ p.longitude ∧ p.longitude ≤ 24) →
      ∃ pre post, wgs84ToSweref99 proj p =
        .error ⟨pre ++ "outside valid range for Sweden" ++ post, "coordinates"⟩) := by
  have hb : isValidWgs84Coordinate p.latitude p.longitude = true ↔
      (55 ≤ p.latitude ∧ p.latitude ≤ 69 ∧ 11 ≤ p.longitude ∧ p.longitude ≤ 24) := by
    simp [isValidWgs84Coordinate, and_assoc]
  by_cases hv : isValidWgs84Coordinate p.latitude p.longitude = true
  · refine ⟨?_, ?_, ?_⟩
    · simp [wgs84ToSweref99, hv, hb.mp hv]
    · intro _
      simp [wgs84ToSweref99, hv]
    · intro hcon
      exact absurd (hb.mp hv) hcon
  · refine ⟨?_, ?_, ?_⟩
    · constructor
      · rintro ⟨q, hq⟩
        simp [wgs84ToSweref99, hv] at hq
      · intro hcon
        exact absurd (hb.mpr hcon) hv
    · intro hcon
      exact absurd (hb.mpr hcon) hv
    · intro _
      refine ⟨"WGS84 coordinates (" ++ ratStr p.latitude ++ ", " ++
        ratStr p.longitude ++ ") are ", " (55-69°N, 11-24°E)", ?_⟩
      simp [wgs84ToSweref99, hv]

/-- Witness for wgs84ToSweref99_envelope at the Paris point (48.86, 2.35),
which lies outside the Sweden envelope, with the concrete projection model. -/
theorem wgs84ToSweref99_envelope_witness :
    ∃ pre post, wgs84ToSweref99 proj4Epsg3006 ⟨48.86, 2.35⟩ =
      .error ⟨pre ++ "outside valid range for Sweden" ++ post, "coordinates"⟩ :=
  (wgs84ToSweref99_envelope proj4Epsg3006 ⟨48.86, 2.35⟩).2.2 (by norm_num)

/-- C10: wgs84BboxToSweref99 projects only the (minLat, minLon) and
(maxLat, maxLon) corners and returns their projected x/y directly as
minX/minY/maxX/maxY with no reordering and no SWEREF99TM-range validation of
the result; consequently the well-ordered in-envelope WGS84 box with corners
(55, 23) and (69, 24), whose longitudes lie far east of the 15 degree
central meridian with a large latitude span, converts to a box with
minX greater than maxX, violating the BoundingBox ordering invariant. -/
theorem wgs84BboxToSweref99_unvalidated_inversion :
    (∀ (proj : Wgs84Point → Sweref99Point) (b : Wgs84Bbox),
      (55 ≤ b.minLat ∧ b.minLat ≤ 69 ∧ 11 ≤ b.minLon ∧ b.minLon ≤ 24) →
      (55 ≤ b.maxLat ∧ b.maxLat ≤ 69 ∧ 11 ≤ b.maxLon ∧ b.maxLon ≤ 24) →
      b.minLat < b.maxLat → b.minLon < b.maxLon →
      wgs84BboxToSweref99 proj b =
        .ok ⟨(proj ⟨b.minLat, b.minLon⟩).x, (proj ⟨b.minLat, b.minLon⟩).y,
             (proj ⟨b.maxLat, b.maxLon⟩).x, (proj ⟨b.maxLat, b.maxLon⟩).y⟩) ∧
    resultHasInvertedX (wgs84BboxToSweref99 proj4Epsg3006 ⟨55, 23, 69, 24⟩) = true := by
  constructor
  · intro proj b hmin hmax hlat hlon
    have hv1 : isValidWgs84Coordinate b.minLat b.minLon = true := by
      simp [isValidWgs84Coordinate]
      exact ⟨⟨⟨hmin.1, hmin.2.1⟩, hmin.2.2.1⟩, hmin.2.2.2⟩
    have hv2 : isValidWgs84Coordinate b.maxLat b.maxLon = true := by
      simp [isValidWgs84Coordinate]
      exact ⟨⟨⟨hmax.1, hmax.2.1⟩, hmax.2.2.1⟩, hmax.2.2.2⟩
    simp [wgs84BboxToSweref99, hv1, hv2, not_le.mpr hlat, not_le.mpr hlon,
      wgs84ToSweref99]
  · decide

/-- Witness for wgs84BboxToSweref99_unvalidated_inversion: the direct-corner
equation applied at the concrete projection model and a concrete box. -/
theorem wgs84BboxToSweref99_unvalidated_inversion_witness :
    wgs84BboxToSweref99 proj4Epsg3006 ⟨56, 12, 57, 13⟩ =
      .ok ⟨(proj4Epsg3006 ⟨56, 12⟩).x, (proj4Epsg3006 ⟨56, 12⟩).y,
           (proj4Epsg3006 ⟨57, 13⟩).x, (proj4Epsg3006 ⟨57, 13⟩).y⟩ :=
  wgs84BboxToSweref99_unvalidated_inversion.1 proj4Epsg3006 ⟨56, 12, 57, 13⟩
    (by norm_num) (by norm_num) (by norm_num) (by norm_num)

/-! WMS protocol client (lib/wms-client.ts, version-aware variant).  Request
construction is pure; the query parameters are modelled as ordered key-value
lists in the order the source inserts them. -/

/-- Coordinate reference system constant from geometry-utils.ts. -/
def CRS_SWEREF99TM : String := "EPSG:3006"

/-- WMS protocol version configured at client construction (default 1.3.0). -/
inductive WmsVersion where
  | v111
  | v130
deriving DecidableEq, Repr

/-- The VERSION parameter value for a configured version. -/
def wmsVersionString : WmsVersion → String
  | .v111 => "1.1.1"
  | .v130 => "1.3.0"

/-- JavaScript String(boolean). -/
def jsBoolString (b : Bool) : String := if b then "true" else "false"

/-- BBOX serialization in minX,minY,maxX,maxY order (WMS 1.1.1). -/
def bboxOrderXY (b : BoundingBox) : String :=
  ratStr b.minX ++ "," ++ ratStr b.minY ++ "," ++ ratStr b.maxX ++ "," ++ ratStr b.maxY

/-- BBOX serialization in minY,minX,maxY,maxX order (WMS 1.3.0 under EPSG:3006). -/
def bboxOrderYX (b : BoundingBox) : String :=
  ratStr b.minY ++ "," ++ ratStr b.minX ++ "," ++ ratStr b.maxY ++ "," ++ ratStr b.maxX

/-- GetMap options (wms-client.ts); optional fields carry the source defaults
applied inside getMapUrl. -/
structure GetMapOptions where
  layers : List String
  bbox : BoundingBox
  width : Option ℚ := none
  height : Option ℚ := none
  format : Option String := none
  crs : Option String := none
  transparent : Option Bool := none

/-- GetFeatureInfo options (wms-client.ts). -/
structure GetFeatureInfoOptions where
  layers : List String
  bbox : BoundingBox
  width : ℚ
  height : ℚ
  x : ℚ
  y : ℚ
  infoFormat : Option String := none
  crs : Option String := none

/-- Query parameters built by getMapUrl in wms-client.ts, in insertion order:
the shared parameters first, then the version-specific CRS parameter and BBOX. -/
def getMapParams (version : WmsVersion) (options : GetMapOptions) : List (String × String) :=
  let width := options.width.getD 800
  let height := options.height.getD 600
  let format := options.format.getD "image/png"
  let crs := options.crs.getD CRS_SWEREF99TM
  let transparent := options.transparent.getD true
  [("SERVICE", "WMS"), ("VERSION", wmsVersionString version), ("REQUEST", "GetMap"),
   ("LAYERS", String.intercalate "," options.layers),
   ("WIDTH", ratStr width), ("HEIGHT", ratStr height),
   ("FORMAT", format), ("TRANSPARENT", jsBoolString transparent)] ++
  (match version with
   | .v111 => [("SRS", crs), ("BBOX", bboxOrderXY options.bbox)]
   | .v130 => [("CRS", crs), ("BBOX", bboxOrderYX options.bbox)])

/-- Query parameters built by getFeatureInfo in wms-client.ts. -/
def getFeatureInfoParams (version : WmsVersion) (options : GetFeatureInfoOptions) :
    List (String × String) :=
  let infoFormat := options.infoFormat.getD "application/json"
  let crs := options.crs.getD CRS_SWEREF99TM
  [("SERVICE", "WMS"), ("VERSION", wmsVersionString version), ("REQUEST", "GetFeatureInfo"),
   ("LAYERS", String.intercalate "," options.layers),
   ("QUERY_LAYERS", String.intercalate "," options.layers),
   ("WIDTH", ratStr options.width), ("HEIGHT", ratStr options.height),
   ("INFO_FORMAT", infoFormat)] ++
  (match version with
   | .v111 => [("SRS", crs), ("BBOX", bboxOrderXY options.bbox),
               ("X", ratStr options.x), ("Y", ratStr options.y)]
   | .v130 => [("CRS", crs), ("BBOX", bboxOrderYX options.bbox),
               ("I", ratStr options.x), ("J", ratStr options.y)])

/-- Query parameters built by getLegendUrl in wms-client.ts. -/
def getLegendParams (version : WmsVersion) (layer : String) (format : Option String) :
    List (String × String) :=
  [("SERVICE", "WMS"), ("VERSION", wmsVersionString version),
   ("REQUEST", "GetLegendGraphic"), ("LAYER", layer), ("FORMAT", format.getD "image/png")]

/-- Query parameters built by getCapabilities in wms-client.ts; the source
hard-codes VERSION 1.3.0 regardless of the configured version. -/
def getCapabilitiesParams (_version : WmsVersion) : List (String × String) :=
  [("SERVICE", "WMS"), ("VERSION", "1.3.0"), ("REQUEST", "GetCapabilities")]

/-- Drop the parameters whose keys are in the given list. -/
def eraseKeys (keys : List String) (params : List (String × String)) :
    List (String × String) :=
  params.filter (fun kv => !(keys.contains kv.1))

/-- The version-specific parameter keys: the version declaration itself, the
CRS parameter name, the bbox, and the pixel coordinate names. -/
def versionKeys : List String := ["VERSION", "SRS", "CRS", "BBOX", "X", "Y", "I", "J"]

/-- C2: WMS version divergence.  For every bbox and layer input, the 1.1.1
client emits SRS, BBOX in minX,minY,maxX,maxY order and pixel parameters X/Y,
while the 1.3.0 client emits CRS, BBOX in minY,minX,maxY,maxX order and pixel
parameters I/J, in both getMapUrl and getFeatureInfo; outside the
version-declaration and these version-specific keys the emitted parameters
are identical, getLegendUrl differs only in the VERSION value, and
getCapabilities is identical for both versions (VERSION is hard-coded 1.3.0). -/
theorem wms_version_divergence (o : GetMapOptions) (fo : GetFeatureInfoOptions)
    (layer : String) (fmt : Option String) :
    (("SRS", o.crs.getD CRS_SWEREF99TM) ∈ getMapParams .v111 o ∧
     ("BBOX", bboxOrderXY o.bbox) ∈ getMapParams .v111 o ∧
     (∀ v, ("CRS", v) ∉ getMapParams .v111 o)) ∧
    (("CRS", o.crs.getD CRS_SWEREF99TM) ∈ getMapParams .v130 o ∧
     ("BBOX", bboxOrderYX o.bbox) ∈ getMapParams .v130 o ∧
     (∀ v, ("SRS", v) ∉ getMapParams .v130 o)) ∧
    (("SRS", fo.crs.getD CRS_SWEREF99TM) ∈ getFeatureInfoParams .v111 fo ∧
     ("BBOX", bboxOrderXY fo.bbox) ∈ getFeatureInfoParams .v111 fo ∧
     ("X", ratStr fo.x) ∈ getFeatureInfoParams .v111 fo ∧
     ("Y", ratStr fo.y) ∈ getFeatureInfoParams .v111 fo ∧
     (∀ v, ("CRS", v) ∉ getFeatureInfoParams .v111 fo) ∧
     (∀ v, ("I", v) ∉ getFeatureInfoParams .v111 fo) ∧
     (∀ v, ("J", v) ∉ getFeatureInfoParams .v111 fo)) ∧
    (("CRS", fo.crs.getD CRS_SWEREF99TM) ∈ getFeatureInfoParams .v130 fo ∧
     ("BBOX", bboxOrderYX fo.bbox) ∈ getFeatureInfoParams .v130 fo ∧
     ("I", ratStr fo.x) ∈ getFeatureInfoParams .v130 fo ∧
     ("J", ratStr fo.y) ∈ getFeatureInfoParams .v130 fo ∧
     (∀ v, ("SRS", v) ∉ getFeatureInfoParams .v130 fo) ∧
     (∀ v, ("X", v) ∉ getFeatureInfoParams .v130 fo) ∧
     (∀ v, ("Y", v) ∉ getFeatureInfoParams .v130 fo)) ∧
    eraseKeys versionKeys (getMapParams .v111 o) =
      eraseKeys versionKeys (getMapParams .v130 o) ∧
    eraseKeys versionKeys (getFeatureInfoParams .v111 fo) =
      eraseKeys versionKeys (getFeatureInfoParams .v130 fo) ∧
    ("VERSION", "1.1.1") ∈ getLegendParams .v111 layer fmt ∧
    ("VERSION", "1.3.0") ∈ getLegendParams .v130 layer fmt ∧
    eraseKeys ["VERSION"] (getLegendParams .v111 layer fmt) =
      eraseKeys ["VERSION"] (getLegendParams .v130 layer fmt) ∧
    getCapabilitiesParams .v111 = getCapabilitiesParams .v130 := by
  refine ⟨⟨?_, ?_, ?_⟩, ⟨?_, ?_, ?_⟩,
    ⟨?_, ?_, ?_, ?_, ?_, ?_, ?_⟩, ⟨?_, ?_, ?_, ?_, ?_, ?_, ?_⟩,
    ?_, ?_, ?_, ?_, ?_, ?_⟩ <;>
    simp [getMapParams, getFeatureInfoParams, getLegendParams, getCapabilitiesParams,
      eraseKeys, versionKeys, wmsVersionString]

/-- Witness for wms_version_divergence at concrete bedrock-map options: the
two versions emit their CRS parameter names and the capabilities parameters
coincide. -/
theorem wms_version_divergence_witness :
    ("SRS", "EPSG:3006") ∈ getMapParams .v111
      ⟨["SE.GOV.SGU.BERG.GEOLOGISK_ENHET.YTA.50K"],
        ⟨670000, 6570000, 680000, 6590000⟩, none, none, none, none, none⟩ ∧
    ("CRS", "EPSG:3006") ∈ getMapParams .v130
      ⟨["SE.GOV.SGU.BERG.GEOLOGISK_ENHET.YTA.50K"],
        ⟨670000, 6570000, 680000, 6590000⟩, none, none, none, none, none⟩ ∧
    getCapabilitiesParams .v111 = getCapabilitiesParams .v130 := by
  have h := wms_version_divergence
    ⟨["SE.GOV.SGU.BERG.GEOLOGISK_ENHET.YTA.50K"],
      ⟨670000, 6570000, 680000, 6590000⟩, none, none, none, none, none⟩
    ⟨["SE.GOV.SGU.JORD.GRUNDLAGER.25K"],
      ⟨673932, 6580722, 674132, 6580922⟩, 256, 256, 128, 128, none, none⟩
    "SE.GOV.SGU.JORD.GRUNDLAGER.25K" none
  exact ⟨h.1.1, h.2.1.1, h.2.2.2.2.2.2.2.2.2⟩

/-! HTTP transport (lib/http-client.ts, sanitized-message variant) and the
getFeatureInfo error handling of wms-client.ts.  The outcome of the single
fetch is modelled explicitly; the request function maps it to either a parsed
response or a thrown error exactly as the source catch logic does. -/

/-- Possible outcomes of the underlying fetch inside the HTTP client. -/
inductive TransportResult (ρ : Type) where
  | success (response : ρ)
  | httpFailure (status : Nat) (statusText : String)
  | timedOut
  | networkFailure (detail : String)

/-- A thrown JavaScript error as seen by a catch block: either a typed
UpstreamApiError or any other value. -/
inductive JsThrown where
  | upstreamApi (e : UpstreamApiError)
  | other (detail : String)

/-- The request function of createHttpClient in http-client.ts: non-2xx
statuses, aborts and network errors become UpstreamApiError values whose
messages depend only on the status number and failure kind, never on the
status text or underlying error detail. -/
def httpClientRequest {ρ : Type} (baseUrl : String) (outcome : TransportResult ρ) :
    Except JsThrown ρ :=
  match outcome with
  | .success r => .ok r
  | .httpFailure status _statusText =>
    .error (.upstreamApi ⟨if 500 ≤ status then
        "The data service returned an error (HTTP " ++ toString status ++
          "). This is usually temporary — try again."
      else
        "The data service rejected the request (HTTP " ++ toString status ++
          "). The query parameters may be invalid.",
      status, baseUrl⟩)
  | .timedOut =>
    .error (.upstreamApi ⟨"The request timed out. The data service may be slow — try again or use a smaller search area.",
      0, baseUrl⟩)
  | .networkFailure _detail =>
    .error (.upstreamApi ⟨"Could not connect to the data service. This is usually temporary — try again.",
      0, baseUrl⟩)

/-- The getFeatureInfo error handling of wms-client.ts: an UpstreamApiError
thrown by the transport is re-thrown unchanged, and any other thrown value is
wrapped into an UpstreamApiError with the may-be-temporarily-unavailable
message. -/
def wmsGetFeatureInfo {ρ : Type} (baseUrl : String) (outcome : TransportResult ρ) :
    Except UpstreamApiError ρ :=
  match httpClientRequest baseUrl outcome with
  | .ok r => .ok r
  | .error (.upstreamApi e) => .error e
  | .error (.other _) =>
    .error ⟨"Failed to query geological data at this location. The data service may be temporarily unavailable — try again.",
      0, baseUrl⟩

/-- The shape of a transport failure with the status text and error detail
forgotten: only the numeric status and the failure kind remain. -/
inductive TransportFailureKind where
  | http (status : Nat)
  | timedOut
  | network

/-- Classify a transport outcome, forgetting status text and error detail. -/
def TransportResult.kind {ρ : Type} : TransportResult ρ → Option TransportFailureKind
  | .success _ => none
  | .httpFailure s _ => some (.http s)
  | .timedOut => some .timedOut
  | .networkFailure _ => some .network

/-- The sanitized transport-layer message for each failure kind; a function of
the failure kind only, so it cannot mention the status text or error detail. -/
def transportFailureMessage : TransportFailureKind → String
  | .http status =>
    if 500 ≤ status then
      "The data service returned an error (HTTP " ++ toString status ++
        "). This is usually temporary — try again."
    else
      "The data service rejected the request (HTTP " ++ toString status ++
        "). The query parameters may be invalid."
  | .timedOut =>
    "The request timed out. The data service may be slow — try again or use a smaller search area."
  | .network =>
    "Could not connect to the data service. This is usually temporary — try again."

/-- C8 counterexample: an HTTP 500 transport failure inside getFeatureInfo is
re-thrown with the transport message naming the numeric status, not with the
service-may-be-unavailable wrap message the claim asserts for every transport
failure. -/
theorem wmsGetFeatureInfo_http500_not_unavailable_message :
    ∃ e, wmsGetFeatureInfo (ρ := Unit) "https://maps3.sgu.se/geoserver/jord/ows"
        (.httpFailure 500 "Internal Server Error") = .error e ∧
      e.message = "The data service returned an error (HTTP 500). This is usually temporary — try again." ∧
      e.message ≠ "Failed to query geological data at this location. The data service may be temporarily unavailable — try again." := by
  refine ⟨_, rfl, ?_, ?_⟩ <;> decide

/-- C8 amended: every transport failure inside getFeatureInfo surfaces as an
UpstreamApiError carrying the base URL and a sanitized message that is a
function of the failure kind and numeric status alone, so the status text and
underlying error detail are never surfaced; errors already typed
UpstreamApiError pass through unchanged, and the
service-may-be-temporarily-unavailable wrap applies only to other thrown
values, which the transport layer never produces. -/
theorem wmsGetFeatureInfo_sanitized (ρ : Type) (baseUrl : String)
    (t : TransportResult ρ) (k : TransportFailureKind) (h : t.kind = some k) :
    ∃ e, wmsGetFeatureInfo baseUrl t = .error e ∧
      e.message = transportFailureMessage k ∧ e.upstream = baseUrl := by
  cases t with
  | success r => simp [TransportResult.kind] at h
  | httpFailure s txt =>
    simp only [TransportResult.kind, Option.some.injEq] at h
    subst h
    exact ⟨_, rfl, rfl, rfl⟩
  | timedOut =>
    simp only [TransportResult.kind, Option.some.injEq] at h
    subst h
    exact ⟨_, rfl, rfl, rfl⟩
  | networkFailure d =>
    simp only [TransportResult.kind, Option.some.injEq] at h
    subst h
    exact ⟨_, rfl, rfl, rfl⟩

/-- Witness for wmsGetFeatureInfo_sanitized at a concrete HTTP 404 failure. -/
theorem wmsGetFeatureInfo_sanitized_witness :
    ∃ e, wmsGetFeatureInfo (ρ := Unit) "https://resource.sgu.se/service/wms/130/brunnar"
        (.httpFailure 404 "Not Found") = .error e ∧
      e.message = transportFailureMessage (.http 404) ∧
      e.upstream = "https://resource.sgu.se/service/wms/130/brunnar" :=
  wmsGetFeatureInfo_sanitized Unit "https://resource.sgu.se/service/wms/130/brunnar"
    (.httpFailure 404 "Not Found") (.http 404) rfl

/-! corridorToWktPolygon (geometry-utils.ts) and the construction described
by the spec, for the refinement claim about the offset algorithm. -/

/-- A thrown error in the geometry code: a ValidationError, or the TypeError
raised when destructuring leftSide[0] of an empty array. -/
inductive JsError where
  | validation (e : ValidationError)
  | typeErr
deriving DecidableEq, Repr

/-- The direction vector computed at vertex index i by the corridorToWktPolygon
loop: forward difference at the first vertex, backward difference at the last,
sum of incoming and outgoing differences at interior vertices. -/
def dirAt (coords : List Point) (i : Nat) : ℚ × ℚ :=
  let p := coords.getD i ⟨0, 0⟩
  if i = 0 then
    let q := coords.getD 1 ⟨0, 0⟩
    (q.x - p.x, q.y - p.y)
  else if i = coords.length - 1 then
    let q := coords.getD (i - 1) ⟨0, 0⟩
    (p.x - q.x, p.y - q.y)
  else
    let q := coords.getD (i - 1) ⟨0, 0⟩
    let r := coords.getD (i + 1) ⟨0, 0⟩
    ((p.x - q.x) + (r.x - p.x), (p.y - q.y) + (r.y - p.y))

/-- One iteration of the corridorToWktPolygon loop: compute the direction and
its length, skip the vertex when the length is zero, otherwise push the two
offset points onto the left and right accumulators. -/
def offsetStep (sq : ℚ → ℚ) (buffer : ℚ) (coords : List Point)
    (acc : List Point × List Point) (i : Nat) : List Point × List Point :=
  let p := coords.getD i ⟨0, 0⟩
  let d := dirAt coords i
  let len := sq (d.1 * d.1 + d.2 * d.2)
  if len = 0 then acc
  else
    (acc.1 ++ [⟨p.x + (-d.2 / len) * buffer, p.y + (d.1 / len) * buffer⟩],
     acc.2 ++ [⟨p.x - (-d.2 / len) * buffer, p.y - (d.1 / len) * buffer⟩])

/-- The corridorToWktPolygon loop over all vertex indices, with the two push
arrays as accumulator. -/
def offsetSidesLoop (sq : ℚ → ℚ) (buffer : ℚ) (coords : List Point) :
    List Point × List Point :=
  (List.range coords.length).foldl (offsetStep sq buffer coords) ([], [])

/-- Point serialization inside the WKT coordinate list. -/
def ptStr (p : Point) : String := ratStr p.x ++ " " ++ ratStr p.y

/-- corridorToWktPolygon from geometry-utils.ts.  When every vertex is
skipped, leftSide[0] is undefined in JavaScript and the destructuring map
throws a TypeError, represented here by the typeErr branch. -/
def corridorToWktPolygon (sq : ℚ → ℚ) (corridor : Corridor) : Except JsError String :=
  if corridor.coordinates.length < 2 then
    .error (.validation ⟨"Corridor must have at least 2 coordinate pairs", "corridor"⟩)
  else
    let leftSide := (offsetSidesLoop sq corridor.bufferMeters corridor.coordinates).1
    let rightSide := (offsetSidesLoop sq corridor.bufferMeters corridor.coordinates).2
    match leftSide with
    | [] => .error .typeErr
    | p0 :: _ =>
      .ok ("POLYGON((" ++
        String.intercalate ", " ((leftSide ++ rightSide.reverse ++ [p0]).map ptStr) ++ "))")

/-- The left offset of the claim at one vertex: normalize the direction
vector, rotate it 90 degrees to the unit perpendicular, and place the point
at plus buffer times the perpendicular; degenerate vertices yield none. -/
def specLeftOffset (sq : ℚ → ℚ) (buffer : ℚ) (coords : List Point) (i : Nat) :
    Option Point :=
  let p := coords.getD i ⟨0, 0⟩
  let d := dirAt coords i
  let len := sq (d.1 * d.1 + d.2 * d.2)
  if len = 0 then none
  else
    let perp : ℚ × ℚ := (-(d.2 / len), d.1 / len)
    some ⟨p.x + buffer * perp.1, p.y + buffer * perp.2⟩

/-- The right offset of the claim at one vertex: the point at minus buffer
times the unit perpendicular. -/
def specRightOffset (sq : ℚ → ℚ) (buffer : ℚ) (coords : List Point) (i : Nat) :
    Option Point :=
  let p := coords.getD i ⟨0, 0⟩
  let d := dirAt coords i
  let len := sq (d.1 * d.1 + d.2 * d.2)
  if len = 0 then none
  else
    let perp : ℚ × ℚ := (-(d.2 / len), d.1 / len)
    some ⟨p.x - buffer * perp.1, p.y - buffer * perp.2⟩

/-- The left-offset points of all non-degenerate vertices, in vertex order. -/
def leftOffsetPoints (sq : ℚ → ℚ) (buffer : ℚ) (coords : List Point) : List Point :=
  (List.range coords.length).filterMap (specLeftOffset sq buffer coords)

/-- The right-offset points of all non-degenerate vertices, in vertex order. -/
def rightOffsetPoints (sq : ℚ → ℚ) (buffer : ℚ) (coords : List Point) : List Point :=
  (List.range coords.length).filterMap (specRightOffset sq buffer coords)

/-- The claim description of the polygon: the left-offset points in order,
then the right-offset points in reverse order, closed by the first
left-offset point again. -/
def corridorWktSpec (sq : ℚ → ℚ) (corridor : Corridor) : Except JsError String :=
  if corridor.coordinates.length < 2 then
    .error (.validation ⟨"Corridor must have at least 2 coordinate pairs", "corridor"⟩)
  else
    match leftOffsetPoints sq corridor.bufferMeters corridor.coordinates with
    | [] => .error .typeErr
    | p0 :: rest =>
      .ok ("POLYGON((" ++
        String.intercalate ", "
          (((p0 :: rest) ++
            (rightOffsetPoints sq corridor.bufferMeters corridor.coordinates).reverse ++
            [p0]).map ptStr) ++ "))")

theorem offsetSides_foldl (sq : ℚ → ℚ) (buffer : ℚ) (coords : List Point)
    (l : List Nat) (a b : List Point) :
    l.foldl (offsetStep sq buffer coords) (a, b) =
      (a ++ l.filterMap (specLeftOffset sq buffer coords),
       b ++ l.filterMap (specRightOffset sq buffer coords)) := by
  induction l generalizing a b with
  | nil => simp
  | cons i t ih =>
    simp only [List.foldl_cons, List.filterMap_cons]
    rw [show offsetStep sq buffer coords (a, b) i =
        (if sq ((dirAt coords i).1 * (dirAt coords i).1 +
            (dirAt coords i).2 * (dirAt coords i).2) = 0 then (a, b)
         else
          (a ++ [⟨(coords.getD i ⟨0, 0⟩).x + (-(dirAt coords i).2 /
              sq ((dirAt coords i).1 * (dirAt coords i).1 +
                (dirAt coords i).2 * (dirAt coords i).2)) * buffer,
            (coords.getD i ⟨0, 0⟩).y + ((dirAt coords i).1 /
              sq ((dirAt coords i).1 * (dirAt coords i).1 +
                (dirAt coords i).2 * (dirAt coords i).2)) * buffer⟩],
           b ++ [⟨(coords.getD i ⟨0, 0⟩).x - (-(dirAt coords i).2 /
              sq ((dirAt coords i).1 * (dirAt coords i).1 +
                (dirAt coords i).2 * (dirAt coords i).2)) * buffer,
            (coords.getD i ⟨0, 0⟩).y - ((dirAt coords i).1 /
              sq ((dirAt coords i).1 * (dirAt coords i).1 +
                (dirAt coords i).2 * (dirAt coords i).2)) * buffer⟩]))
      from rfl]
    by_cases h : sq ((dirAt coords i).1 * (dirAt coords i).1 +
        (dirAt coords i).2 * (dirAt coords i).2) = 0
    · rw [if_pos h, ih]
      simp [specLeftOffset, specRightOffset, h]
    · rw [if_neg h, ih]
      simp only [specLeftOffset, specRightOffset, if_neg h, Prod.mk.injEq,
        List.append_assoc, List.singleton_append]
      refine ⟨?_, ?_⟩ <;>
      · refine congrArg _ ?_
        refine congrArg₂ _ ?_ rfl
        simp only [Point.mk.injEq]
        exact ⟨by ring, by ring⟩

theorem offsetSidesLoop_eq (sq : ℚ → ℚ) (buffer : ℚ) (coords : List Point) :
    offsetSidesLoop sq buffer coords =
      (leftOffsetPoints sq buffer coords, rightOffsetPoints sq buffer coords) := by
  unfold offsetSidesLoop leftOffsetPoints rightOffsetPoints
  rw [offsetSides_foldl]
  simp

/-- C3: the corridorToWktPolygon algorithm produces exactly the polygon the
spec describes: per-vertex direction vectors (forward, backward, bisector
sum), normalized and rotated 90 degrees to a unit perpendicular, offset
points at plus and minus buffer times the perpendicular, degenerate vertices
skipped, and the ring assembled as left offsets forward, right offsets
reversed, closed by the first left offset. -/
theorem corridorToWktPolygon_matches_spec (sq : ℚ → ℚ) (c : Corridor)
    (h : 2 ≤ c.coordinates.length) :
    corridorToWktPolygon sq c = corridorWktSpec sq c := by
  unfold corridorToWktPolygon corridorWktSpec
  rw [if_neg (by omega), if_neg (by omega), offsetSidesLoop_eq]
  dsimp only
  cases leftOffsetPoints sq c.bufferMeters c.coordinates with
  | nil => rfl
  | cons p0 rest => simp

/-- Witness for corridorToWktPolygon_matches_spec at a concrete two-vertex
corridor and a concrete square-root function. -/
theorem corridorToWktPolygon_matches_spec_witness :
    corridorToWktPolygon (fun _ => 1) ⟨[⟨10, 10⟩, ⟨11, 10⟩], 1⟩ =
      corridorWktSpec (fun _ => 1) ⟨[⟨10, 10⟩, ⟨11, 10⟩], 1⟩ :=
  corridorToWktPolygon_matches_spec (fun _ => 1) ⟨[⟨10, 10⟩, ⟨11, 10⟩], 1⟩ (by decide)

/-! OGC API Features client (lib/ogc-client.ts).  The query parameters of
getItems are modelled as the raw key-value pairs the source builds, and the
filtering of undefined and empty-string values done by the HTTP client when
it sets them on the URL. -/

/-- Query options of getItems in ogc-client.ts. -/
structure OgcQueryOptions where
  bbox : Option BoundingBox := none
  polygonWkt : Option String := none
  limit : Option ℚ := none
  offset : Option ℚ := none
  crs : Option String := none

/-- The raw parameter object built by getItems: limit, offset, crs and
bbox-crs first, then either the CQL filter triple (when the polygon string is
truthy, i.e. present and nonempty) or the bbox string (when a bbox is
present).  A value of none stands for a JavaScript undefined. -/
def rawGetItemsParams (options : OgcQueryOptions) : List (String × Option String) :=
  let limit := options.limit.getD 100
  let crs := options.crs.getD CRS_SWEREF99TM
  let spatial : List (String × Option String) :=
    match options.polygonWkt with
    | some w =>
      if w = "" then
        match options.bbox with
        | some b => [("bbox", some (bboxToString b))]
        | none => []
      else
        [("filter", some ("INTERSECTS(geom," ++ w ++ ")")),
         ("filter-lang", some "cql-text"), ("filter-crs", some crs)]
    | none =>
      match options.bbox with
      | some b => [("bbox", some (bboxToString b))]
      | none => []
  [("limit", some (ratStr limit)), ("offset", options.offset.map ratStr),
   ("crs", some crs), ("bbox-crs", some crs)] ++ spatial

/-- The HTTP client sets only parameters whose value is neither undefined nor
the empty string (http-client.ts). -/
def applyParams (params : List (String × Option String)) : List (String × String) :=
  params.filterMap (fun kv =>
    match kv.2 with
    | some v => if v = "" then none else some (kv.1, v)
    | none => none)

/-- The query parameters actually sent by getItems. -/
def getItemsParams (options : OgcQueryOptions) : List (String × String) :=
  applyParams (rawGetItemsParams options)

theorem append_ne_empty_right (a b : String) (hb : b ≠ "") : a ++ b ≠ "" := by
  intro h
  have hlen := congrArg String.length h
  rw [String.length_append] at hlen
  have hz : b.length = 0 := by
    have : ("" : String).length = 0 := by decide
    omega
  exact hb (String.ext (by simpa [String.length] using List.length_eq_zero.mp hz))

theorem append_ne_empty_left (a b : String) (ha : a ≠ "") : a ++ b ≠ "" := by
  intro h
  have hlen := congrArg String.length h
  rw [String.length_append] at hlen
  have hz : a.length = 0 := by
    have : ("" : String).length = 0 := by decide
    omega
  exact ha (String.ext (by simpa [String.length] using List.length_eq_zero.mp hz))

theorem applyParams_key (k v : String) (params : List (String × Option String))
    (h : (k, v) ∈ applyParams params) : ∃ ov, (k, ov) ∈ params := by
  simp only [applyParams, List.mem_filterMap] at h
  obtain ⟨⟨k', ov⟩, hmem, hf⟩ := h
  cases ov with
  | none => simp at hf
  | some s =>
    simp only at hf
    split at hf
    · simp at hf
    · simp only [Option.some.injEq, Prod.mk.injEq] at hf
      exact ⟨some s, by rw [← hf.1]; exact hmem⟩

/-- C5: polygon-filter precedence in getItems.  With a nonempty WKT polygon
supplied and a nonempty CRS value, the sent parameters contain the CQL filter
triple and no bbox parameter even when a bbox was also supplied; with no
polygon and a bbox supplied, the sent parameters contain the serialized
bbox. -/
theorem getItems_polygon_precedence (options : OgcQueryOptions)
    (hcrs : options.crs.getD CRS_SWEREF99TM ≠ "") :
    (∀ w, options.polygonWkt = some w → w ≠ "" →
      (("filter", "INTERSECTS(geom," ++ w ++ ")") ∈ getItemsParams options ∧
       ("filter-lang", "cql-text") ∈ getItemsParams options ∧
       ("filter-crs", options.crs.getD CRS_SWEREF99TM) ∈ getItemsParams options ∧
       (∀ v, ("bbox", v) ∉ getItemsParams options))) ∧
    (∀ b, options.polygonWkt = none → options.bbox = some b →
      ("bbox", bboxToString b) ∈ getItemsParams options) := by
  constructor
  · intro w hw hne
    have hfilter : ("INTERSECTS(geom," ++ w ++ ")") ≠ "" :=
      append_ne_empty_right _ _ (by decide)
    refine ⟨?_, ?_, ?_, ?_⟩
    · simp only [getItemsParams, rawGetItemsParams, hw, if_neg hne, applyParams,
        List.filterMap_append, List.mem_append]
      right
      simp [hfilter]
    · simp only [getItemsParams, rawGetItemsParams, hw, if_neg hne, applyParams,
        List.filterMap_append, List.mem_append]
      right
      simp [hfilter]
    · simp only [getItemsParams, rawGetItemsParams, hw, if_neg hne, applyParams,
        List.filterMap_append, List.mem_append]
      right
      simp [hfilter, hcrs]
    · intro v hmem
      obtain ⟨ov, hov⟩ := applyParams_key "bbox" v _ hmem
      revert hov
      simp [rawGetItemsParams, hw, if_neg hne]
  · intro b hw hb
    simp only [getItemsParams, rawGetItemsParams, hw, hb, applyParams,
      List.filterMap_append, List.mem_append]
    right
    have hne : bboxToString b ≠ "" := by
      unfold bboxToString
      exact append_ne_empty_left _ _
        (append_ne_empty_right _ "," (by decide))
    simp [hne]

/-- Witness for getItems_polygon_precedence: a query carrying both a polygon
and a bbox sends the filter triple and no bbox parameter, and a bbox-only
query sends the bbox string. -/
theorem getItems_polygon_precedence_witness :
    (("filter", "INTERSECTS(geom," ++ "POLYGON((1 1, 2 2, 3 1, 1 1))" ++ ")") ∈
        getItemsParams ⟨some ⟨670000, 6570000, 680000, 6590000⟩,
          some "POLYGON((1 1, 2 2, 3 1, 1 1))", none, none, none⟩ ∧
      (∀ v, ("bbox", v) ∉
        getItemsParams ⟨some ⟨670000, 6570000, 680000, 6590000⟩,
          some "POLYGON((1 1, 2 2, 3 1, 1 1))", none, none, none⟩)) ∧
    ("bbox", bboxToString ⟨670000, 6570000, 680000, 6590000⟩) ∈
      getItemsParams ⟨some ⟨670000, 6570000, 680000, 6590000⟩, none, none, none, none⟩ := by
  refine ⟨⟨?_, ?_⟩, ?_⟩
  · exact (((getItems_polygon_precedence
      ⟨some ⟨670000, 6570000, 680000, 6590000⟩, some "POLYGON((1 1, 2 2, 3 1, 1 1))",
        none, none, none⟩ (by decide)).1 "POLYGON((1 1, 2 2, 3 1, 1 1))" rfl
      (by decide))).1
  · exact (((getItems_polygon_precedence
      ⟨some ⟨670000, 6570000, 680000, 6590000⟩, some "POLYGON((1 1, 2 2, 3 1, 1 1))",
        none, none, none⟩ (by decide)).1 "POLYGON((1 1, 2 2, 3 1, 1 1))" rfl
      (by decide))).2.2.2
  · exact (getItems_polygon_precedence
      ⟨some ⟨670000, 6570000, 680000, 6590000⟩, none, none, none, none⟩
      (by decide)).2 ⟨670000, 6570000, 680000, 6590000⟩ rfl rfl

/-! Geodata facade (clients/sgu-client.ts): the point-query factory and the
bedrock fallback.  Network calls are passed in as explicit function
parameters; the facade logic itself is translated from the source. -/

/-- The soil-types WMS layer list from sgu-client.ts. -/
def SOIL_TYPES_LAYERS : List String := ["SE.GOV.SGU.JORD.GRUNDLAGER.25K"]

/-- JavaScript Math.floor on an embedded number. -/
def jsMathFloor (q : ℚ) : ℚ := ((⌊q⌋ : ℤ) : ℚ)

/-- The GetFeatureInfo options built by createPointQueryMethod in
sgu-client.ts: a 100 meter buffer box around the point, a 256 by 256 image,
and the center pixel. -/
def pointQueryOptions (layers : List String) (point : Point) : GetFeatureInfoOptions :=
  let buffer : ℚ := 100
  let bbox : BoundingBox :=
    ⟨point.x - buffer, point.y - buffer, point.x + buffer, point.y + buffer⟩
  let width : ℚ := 256
  let height : ℚ := 256
  let pixelX := jsMathFloor (width / 2)
  let pixelY := jsMathFloor (height / 2)
  ⟨layers, bbox, width, height, pixelX, pixelY, none, none⟩

/-- createPointQueryMethod from sgu-client.ts: issue the GetFeatureInfo
request with the built options and shape the response; errors propagate. -/
def createPointQueryMethod {ρ τ : Type}
    (wmsGetFeatureInfoAt : GetFeatureInfoOptions → Except UpstreamApiError ρ)
    (layers : List String) (transform : ρ → Option τ) (point : Point) :
    Except UpstreamApiError (Option τ) :=
  (wmsGetFeatureInfoAt (pointQueryOptions layers point)).map transform

/-- Properties of a soil-type GetFeatureInfo feature (types/sgu-api.ts),
current and legacy field names. -/
structure SguSoilTypeProperties where
  Jordart : Option String := none
  Kartering : Option String := none
  Karttyp : Option ℚ := none
  symbol : Option ℚ := none
  grundlager : Option String := none
  jordart_tx : Option String := none
  jordart : Option String := none
  underlag : Option String := none
  tunt_ytlager : Option String := none
  landform : Option String := none
  blockighet : Option String := none
deriving DecidableEq, Repr

/-- One feature of a soil-type GetFeatureInfo response. -/
structure SguSoilTypeFeature where
  type : String
  id : Option String := none
  properties : SguSoilTypeProperties
deriving DecidableEq, Repr

/-- A soil-type GetFeatureInfo response; the features array is optional. -/
structure SguSoilTypeInfoResponse where
  type : String
  features : Option (List SguSoilTypeFeature) := none
deriving DecidableEq, Repr

/-- Shaped soil-type record (types/sgu-api.ts). -/
structure SoilTypeInfo where
  surface_layer : Option String := none
  underlying_layer : Option String := none
  thin_surface_layer : Option String := none
  landform : Option String := none
  boulder_coverage : Option String := none
  raw_soil_type : Option String := none
deriving DecidableEq, Repr

/-- JavaScript logical-or over optional strings: the left operand when it is
present and nonempty (truthy), otherwise the right operand. -/
def jsOrStr : Option String → Option String → Option String
  | some s, b => if s = "" then b else some s
  | none, b => b

/-- transformSoilTypeInfo from types/sgu-api.ts: take the first feature if
any, probe the soil-type field names in priority order, and return none when
there is no feature. -/
def transformSoilTypeInfo (response : SguSoilTypeInfoResponse) : Option SoilTypeInfo :=
  match response.features with
  | none => none
  | some [] => none
  | some (feature :: _) =>
    let props := feature.properties
    let soilType :=
      jsOrStr (jsOrStr (jsOrStr props.Jordart props.grundlager) props.jordart_tx) props.jordart
    some ⟨soilType, props.underlag, props.tunt_ytlager, props.landform,
          props.blockighet, soilType⟩

/-- C4: every point query is issued with exactly the 200m square bbox around
the point (100m buffer each side), a 256 by 256 image and center pixel
(128, 128); and a response with no feature shapes to null (none), not an
error, both in the shaping function and through the point-query method. -/
theorem point_query_contract :
    (∀ (layers : List String) (p : Point),
      pointQueryOptions layers p =
        ⟨layers, ⟨p.x - 100, p.y - 100, p.x + 100, p.y + 100⟩,
         256, 256, 128, 128, none, none⟩) ∧
    (∀ r : SguSoilTypeInfoResponse, (r.features = none ∨ r.features = some []) →
      transformSoilTypeInfo r = none) ∧
    (∀ (respond : GetFeatureInfoOptions → Except UpstreamApiError SguSoilTypeInfoResponse)
       (p : Point) (r : SguSoilTypeInfoResponse),
      respond (pointQueryOptions SOIL_TYPES_LAYERS p) = .ok r →
      (r.features = none ∨ r.features = some []) →
      createPointQueryMethod respond SOIL_TYPES_LAYERS transformSoilTypeInfo p =
        .ok none) := by
  have htrans : ∀ r : SguSoilTypeInfoResponse,
      (r.features = none ∨ r.features = some []) → transformSoilTypeInfo r = none := by
    intro r hr
    rcases hr with hr | hr <;> simp [transformSoilTypeInfo, hr]
  refine ⟨?_, htrans, ?_⟩
  · intro layers p
    have hfloor : jsMathFloor ((256 : ℚ) / 2) = 128 := by
      norm_num [jsMathFloor]
    simp [pointQueryOptions, hfloor]
  · intro respond p r hresp hr
    simp [createPointQueryMethod, hresp, Except.map, htrans r hr]

/-- Witness for point_query_contract: a mocked featureless upstream response
shapes to ok none at a concrete point. -/
theorem point_query_contract_witness :
    createPointQueryMethod (fun _ => .ok ⟨"FeatureCollection", none⟩)
      SOIL_TYPES_LAYERS transformSoilTypeInfo ⟨674032, 6580822⟩ = .ok none :=
  point_query_contract.2.2 (fun _ => .ok ⟨"FeatureCollection", none⟩)
    ⟨674032, 6580822⟩ ⟨"FeatureCollection", none⟩ rfl (Or.inl rfl)

/-- GeoJSON feature id: a string or a number. -/
inductive JsonId where
  | str (s : String)
  | num (q : ℚ)
deriving DecidableEq, Repr

/-- JavaScript String() of a feature id. -/
def jsString : JsonId → String
  | .str s => s
  | .num q => ratStr q

/-- GeoJSON geometry (types/sgu-api.ts). -/
inductive GeoJsonGeometry where
  | point (coordinates : List ℚ)
  | lineString (coordinates : List (List ℚ))
  | polygon (coordinates : List (List (List ℚ)))
  | multiPoint (coordinates : List (List ℚ))
  | multiLineString (coordinates : List (List (List ℚ)))
  | multiPolygon (coordinates : List (List (List (List ℚ))))
deriving DecidableEq, Repr

/-- geometryToWkt from types/sgu-api.ts; the unhandled geometry types fall to
the default branch rendering the type name with an ellipsis. -/
def geometryToWkt (geometry : GeoJsonGeometry) : String :=
  match geometry with
  | .point c => "POINT(" ++ String.intercalate " " (c.map ratStr) ++ ")"
  | .lineString c =>
    "LINESTRING(" ++
      String.intercalate ", " (c.map (fun p => String.intercalate " " (p.map ratStr))) ++ ")"
  | .polygon c =>
    "POLYGON(" ++
      String.intercalate ", " (c.map (fun ring =>
        "(" ++ String.intercalate ", "
          (ring.map (fun p => String.intercalate " " (p.map ratStr))) ++ ")")) ++ ")"
  | .multiPolygon c =>
    "MULTIPOLYGON(" ++
      String.intercalate ", " (c.map (fun poly =>
        "(" ++ String.intercalate ", " (poly.map (fun ring =>
          "(" ++ String.intercalate ", "
            (ring.map (fun p => String.intercalate " " (p.map ratStr))) ++ ")")) ++ ")")) ++ ")"
  | .multiPoint _ => "MultiPoint" ++ "(...)"
  | .multiLineString _ => "MultiLineString" ++ "(...)"

/-- Raw bedrock feature properties (types/sgu-api.ts), the fields the
transform reads. -/
structure SguBedrockProperties where
  objectid : ℚ
  geo_enh_tx : String
  bergart_tx : String
  lito_n_tx : String
  tekt_n_tx : String
  b_prop_tx : Option String := none
  geom_area : Option ℚ := none
deriving DecidableEq, Repr

/-- Raw bedrock GeoJSON feature. -/
structure SguBedrockFeature where
  type : String
  id : Option JsonId := none
  geometry : GeoJsonGeometry
  properties : SguBedrockProperties
deriving DecidableEq, Repr

/-- Shaped bedrock feature (types/sgu-api.ts). -/
structure BedrockFeature where
  id : String
  rock_type : String
  geological_unit : String
  lithology : String
  tectonic_unit : String
  rock_properties : Option String := none
  area_m2 : Option ℚ := none
  geometry_wkt : String
deriving DecidableEq, Repr

/-- JavaScript logical-or of a string with a fallback literal. -/
def jsOrDefault (s fallback : String) : String := if s = "" then fallback else s

/-- transformBedrockFeature from types/sgu-api.ts. -/
def transformBedrockFeature (feature : SguBedrockFeature) : BedrockFeature :=
  let props := feature.properties
  ⟨(match feature.id with
    | some i => jsString i
    | none => ratStr props.objectid),
   jsOrDefault props.bergart_tx "Unknown",
   jsOrDefault props.geo_enh_tx "Unknown",
   jsOrDefault props.lito_n_tx "Unknown",
   jsOrDefault props.tekt_n_tx "Unknown",
   props.b_prop_tx,
   props.geom_area,
   geometryToWkt feature.geometry⟩

/-- The error raised by getBedrock: a propagated UpstreamApiError from the
retry, or the generic Error thrown when a plain bbox query fails. -/
inductive GetBedrockError where
  | upstream (e : UpstreamApiError)
  | generic (message : String)
deriving DecidableEq, Repr

/-- The result of getBedrock. -/
structure GetBedrockResult where
  features : List BedrockFeature
  usedPolygonFilter : Bool
deriving DecidableEq, Repr

/-- sguClient.getBedrock from clients/sgu-client.ts, with the OGC client
getItems call passed in as a function parameter.  When a corridor is given,
polygon construction is attempted and a failure silently falls back to the
bbox; the items query is issued with the polygon filter and without the bbox
when the polygon was built; when that query fails and a polygon filter was
in use, the query is retried once with the bbox only, reporting
usedPolygonFilter false; a failing retry propagates its error, and a failing
plain bbox query raises the generic failure. -/
def getBedrock (sq : ℚ → ℚ)
    (getItemsAt : String → OgcQueryOptions → Except UpstreamApiError (List SguBedrockFeature))
    (bbox : BoundingBox) (limit : ℚ) (corridor : Option Corridor) :
    Except GetBedrockError GetBedrockResult :=
  let built : Option String × Bool :=
    match corridor with
    | none => (none, false)
    | some c =>
      match corridorToWktPolygon sq c with
      | .ok w => (some w, true)
      | .error _ => (none, false)
  let polygonWkt := built.1
  let usedPolygonFilter := built.2
  match getItemsAt "geologisk-enhet-yta"
      ⟨if usedPolygonFilter then none else some bbox, polygonWkt, some limit, none, none⟩ with
  | .ok features => .ok ⟨features.map transformBedrockFeature, usedPolygonFilter⟩
  | .error _ =>
    if usedPolygonFilter then
      match getItemsAt "geologisk-enhet-yta" ⟨some bbox, none, some limit, none, none⟩ with
      | .ok features => .ok ⟨features.map transformBedrockFeature, false⟩
      | .error e2 => .error (.upstream e2)
    else .error (.generic "Failed to fetch bedrock data")

/-- C1: bedrock polygon-filter fallback.  For a corridor-backed query (the
bbox is the corridor bounding box and the corridor WKT polygon was built),
if the polygon-filtered items call succeeds the result carries
usedPolygonFilter true; if it fails, a second call with the bbox only is
issued and its result carries usedPolygonFilter false. -/
theorem getBedrock_polygon_fallback (sq : ℚ → ℚ)
    (getItemsAt : String → OgcQueryOptions → Except UpstreamApiError (List SguBedrockFeature))
    (c : Corridor) (bb : BoundingBox) (limit : ℚ) (w : String)
    (hbb : corridorToBoundingBox c = .ok bb)
    (hw : corridorToWktPolygon sq c = .ok w) :
    (∀ feats,
      getItemsAt "geologisk-enhet-yta" ⟨none, some w, some limit, none, none⟩ = .ok feats →
      getBedrock sq getItemsAt bb limit (some c) =
        .ok ⟨feats.map transformBedrockFeature, true⟩) ∧
    (∀ e feats,
      getItemsAt "geologisk-enhet-yta" ⟨none, some w, some limit, none, none⟩ = .error e →
      getItemsAt "geologisk-enhet-yta" ⟨some bb, none, some limit, none, none⟩ = .ok feats →
      getBedrock sq getItemsAt bb limit (some c) =
        .ok ⟨feats.map transformBedrockFeature, false⟩) := by
  constructor
  · intro feats hfeats
    simp [getBedrock, hw, hfeats]
  · intro e feats herr hfeats
    simp [getBedrock, hw, herr, hfeats]

/-- Witness for getBedrock_polygon_fallback: a concrete corridor with mocked
items calls, one succeeding on the polygon filter and one failing on it and
succeeding on the bbox retry. -/
theorem getBedrock_polygon_fallback_witness :
    ∃ w bb,
      corridorToBoundingBox ⟨[⟨10, 10⟩, ⟨11, 10⟩], 1⟩ = .ok bb ∧
      corridorToWktPolygon (fun _ => 1) ⟨[⟨10, 10⟩, ⟨11, 10⟩], 1⟩ = .ok w ∧
      getBedrock (fun _ => 1)
        (fun _ o => if o.polygonWkt.isSome then .ok [] else
          .error ⟨"The data service rejected the request (HTTP 400). The query parameters may be invalid.", 400, "https://api.sgu.se/oppnadata/berggrund50k-250k/ogc/features/v1"⟩)
        bb 100 (some ⟨[⟨10, 10⟩, ⟨11, 10⟩], 1⟩) = .ok ⟨[], true⟩ ∧
      getBedrock (fun _ => 1)
        (fun _ o => if o.polygonWkt.isSome then
          .error ⟨"The data service rejected the request (HTTP 400). The query parameters may be invalid.", 400, "https://api.sgu.se/oppnadata/berggrund50k-250k/ogc/features/v1"⟩
          else .ok [])
        bb 100 (some ⟨[⟨10, 10⟩, ⟨11, 10⟩], 1⟩) = .ok ⟨[], false⟩ := by
  refine ⟨_, _, rfl, rfl, ?_, ?_⟩
  · exact (getBedrock_polygon_fallback (fun _ => 1) _ ⟨[⟨10, 10⟩, ⟨11, 10⟩], 1⟩ _ 100 _
      rfl rfl).1 [] rfl
  · exact (getBedrock_polygon_fallback (fun _ => 1) _ ⟨[⟨10, 10⟩, ⟨11, 10⟩], 1⟩ _ 100 _
      rfl rfl).2
      ⟨"The data service rejected the request (HTTP 400). The query parameters may be invalid.", 400, "https://api.sgu.se/oppnadata/berggrund50k-250k/ogc/features/v1"⟩
      [] rfl rfl

end Sgu
